import Mathlib

/-
Verification of the ProcessSynthesis repository: a shallow embedding of the
expression-tree pretty-printer, the equation classifier and the document
renderer from parse_pde_jsons.py, together with the post-response content
handling of generate_pde_jsons.py and the batch loop of
generate_from_example_pdes.py.

Python values that can appear in a parsed JSON document (plus the booleans
and None that Python adds) are modelled by the inductive type PyVal below;
machine-level floats do not occur in any statement here, numbers are
modelled as integers.  A Python function that can raise an exception is
modelled as returning an Option (Option.none marks the raise), and since
rendering is recursive over untrusted input, the renderer carries an
explicit fuel argument: fuel exhaustion is also Option.none, matching the
interpreter recursion limit.  Every statement below supplies its own
sufficient fuel explicitly.
-/

/-- A Python value as it may appear in a JSON-decoded document: None,
booleans, integers, strings, lists and string-keyed dicts in insertion
order. -/
inductive PyVal where
  | none
  | bool (b : Bool)
  | int (n : Int)
  | str (s : String)
  | list (elts : List PyVal)
  | dict (entries : List (String × PyVal))

mutual

/-- Python repr of a value, as used when a container is stringified. -/
def pyRepr : PyVal → String
  | PyVal.none => "None"
  | PyVal.bool true => "True"
  | PyVal.bool false => "False"
  | PyVal.int n => toString n
  | PyVal.str s => "\x27" ++ s ++ "\x27"
  | PyVal.list xs => "[" ++ pyReprList xs ++ "]"
  | PyVal.dict kvs => "\x7b" ++ pyReprDict kvs ++ "\x7d"

/-- Comma-joined reprs of list elements. -/
def pyReprList : List PyVal → String
  | [] => ""
  | [x] => pyRepr x
  | x :: y :: rest => pyRepr x ++ ", " ++ pyReprList (y :: rest)

/-- Comma-joined reprs of dict entries. -/
def pyReprDict : List (String × PyVal) → String
  | [] => ""
  | [kv] => "\x27" ++ kv.1 ++ "\x27: " ++ pyRepr kv.2
  | kv :: kv2 :: rest =>
      "\x27" ++ kv.1 ++ "\x27: " ++ pyRepr kv.2 ++ ", " ++ pyReprDict (kv2 :: rest)

end

/-- Python str() of a value, as applied by str(...) and by f-string
interpolation: a string is used as-is, anything else falls back to repr. -/
def pyStr : PyVal → String
  | PyVal.str s => s
  | v => pyRepr v

/-- Python truthiness of a value. -/
def pyTruthy : PyVal → Bool
  | PyVal.none => false
  | PyVal.bool b => b
  | PyVal.int n => n != 0
  | PyVal.str s => !s.data.isEmpty
  | PyVal.list xs => !xs.isEmpty
  | PyVal.dict kvs => !kvs.isEmpty

/-- Python equality test of a value against an integer literal (booleans
compare equal to 0 and 1, every non-numeric value compares unequal). -/
def pyEqInt (v : PyVal) (m : Int) : Bool :=
  match v with
  | PyVal.int n => n == m
  | PyVal.bool b => (if b then (1 : Int) else 0) == m
  | _ => false

/-- Python len(): defined on strings, lists and dicts, a TypeError
(Option.none) otherwise. -/
def pyLen : PyVal → Option Nat
  | PyVal.str s => some s.data.length
  | PyVal.list xs => some xs.length
  | PyVal.dict kvs => some kvs.length
  | _ => Option.none

/-- Python subscript v[i] for a natural index: list element, one-character
string, and a KeyError (Option.none) on a string-keyed dict or any other
value. -/
def pyIndex (v : PyVal) (i : Nat) : Option PyVal :=
  match v with
  | PyVal.list xs => xs.get? i
  | PyVal.str s => (s.data.get? i).map (fun c => PyVal.str (Char.toString c))
  | _ => Option.none

/-- Python iteration over a value: list elements, one-character strings of
a string, the keys of a dict, and a TypeError (Option.none) otherwise. -/
def pyIterate : PyVal → Option (List PyVal)
  | PyVal.list xs => some xs
  | PyVal.str s => some (s.data.map (fun c => PyVal.str (Char.toString c)))
  | PyVal.dict kvs => some (kvs.map (fun kv => PyVal.str kv.1))
  | _ => Option.none

/-- Renders every element of a list with the given renderer, requiring each
result to be a string as str.join does; the first raised exception or
non-string result aborts (Option.none). -/
def mapRenderStrs (render : PyVal → Option PyVal) : List PyVal → Option (List String)
  | [] => some []
  | x :: rest =>
    match render x with
    | some (PyVal.str s) => (mapRenderStrs render rest).map (fun l => s :: l)
    | _ => Option.none

/-- Models the source pattern that joins rendered argument nodes with
a comma: iterating a list renders each element; iterating a non-empty
string or dict feeds bare strings to the renderer, which raises on them
(AttributeError on .get), so only the empty cases join to the empty
string; a non-iterable raises TypeError. -/
def renderJoinArgs (render : PyVal → Option PyVal) (args : PyVal) : Option String :=
  match args with
  | PyVal.list xs => (mapRenderStrs render xs).map (String.intercalate ", ")
  | PyVal.str s => if s.data.isEmpty then some "" else Option.none
  | PyVal.dict kvs => if kvs.isEmpty then some "" else Option.none
  | _ => Option.none

/-- Membership of an operator value in the binary-operator set of the
source: only the five operator strings belong to it. -/
def isBinOp : PyVal → Bool
  | PyVal.str s => (s == "+") || (s == "-") || (s == "*") || (s == "/") || (s == "^")
  | _ => false

/-- Equality of a value with a string literal, as the source compares the
operator field. -/
def pvEqStr (v : PyVal) (s : String) : Bool :=
  match v with
  | PyVal.str t => t == s
  | _ => false

/-- The generic operator rendering of the source: arguments joined by a
comma after the operator name, op(a0, a1, ...). -/
def opGeneric (render : PyVal → Option PyVal) (opv : PyVal) (args : PyVal) : Option PyVal :=
  match renderJoinArgs render args with
  | some inner => some (PyVal.str (pyStr opv ++ "(" ++ inner ++ ")"))
  | Option.none => Option.none

/-- The branch selected by the type-tag if-chain of expr_to_str. -/
inductive NodeTag where
  | deriv | dep | param | const | var | fn | op | other
deriving DecidableEq

/-- The type-tag dispatch of expr_to_str: the source compares the value of
the type field against the seven recognized tag strings in order, and any
other value (a different string, a missing field, or a non-string) falls
through to the placeholder branch. -/
def nodeTag (t : Option PyVal) : NodeTag :=
  match t with
  | some (PyVal.str s) =>
    if s = "deriv" then NodeTag.deriv
    else if s = "dep" then NodeTag.dep
    else if s = "param" then NodeTag.param
    else if s = "const" then NodeTag.const
    else if s = "var" then NodeTag.var
    else if s = "fn" then NodeTag.fn
    else if s = "op" then NodeTag.op
    else NodeTag.other
  | _ => NodeTag.other

/-- The expression renderer expr_to_str of parse_pde_jsons.py, with an
explicit fuel bound on recursion depth.  Option.none marks a raised
exception (KeyError or AttributeError or TypeError) or fuel exhaustion;
a successful render returns the raw Python value the source returns,
which is a string except for the dep, param and var branches that return
the name field unchanged. -/
def expr_to_str : Nat → PyVal → Option PyVal
  | 0, _ => Option.none
  | fuel+1, PyVal.dict kvs =>
    match nodeTag (kvs.lookup "type") with
    | NodeTag.deriv =>
      match kvs.lookup "dep" with
      | Option.none => Option.none
      | some dep =>
        match kvs.lookup "wrt" with
        | Option.none => Option.none
        | some wrt =>
          let order := (kvs.lookup "order").getD (PyVal.int 1)
          if pyEqInt order 1 then
            some (PyVal.str ("∂" ++ pyStr dep ++ "/∂" ++ pyStr wrt))
          else
            some (PyVal.str ("∂^" ++ pyStr order ++ pyStr dep ++ "/∂" ++ pyStr wrt ++ "^" ++ pyStr order))
    | NodeTag.dep => kvs.lookup "name"
    | NodeTag.param => kvs.lookup "name"
    | NodeTag.const => (kvs.lookup "value").map (fun v => PyVal.str (pyStr v))
    | NodeTag.var => kvs.lookup "name"
    | NodeTag.fn =>
      match kvs.lookup "name" with
      | Option.none => Option.none
      | some nm =>
        match renderJoinArgs (expr_to_str fuel) ((kvs.lookup "args").getD (PyVal.list [])) with
        | some inner => some (PyVal.str (pyStr nm ++ "(" ++ inner ++ ")"))
        | Option.none => Option.none
    | NodeTag.op =>
      match kvs.lookup "op" with
      | Option.none => Option.none
      | some opv =>
        let args := (kvs.lookup "args").getD (PyVal.list [])
        if isBinOp opv then
          match pyLen args with
          | Option.none => Option.none
          | some n =>
            if n = 2 then
              match pyIndex args 0 with
              | Option.none => Option.none
              | some a0 =>
                match expr_to_str fuel a0 with
                | Option.none => Option.none
                | some left =>
                  match pyIndex args 1 with
                  | Option.none => Option.none
                  | some a1 =>
                    match expr_to_str fuel a1 with
                    | Option.none => Option.none
                    | some right =>
                      if pvEqStr opv "*" then
                        some (PyVal.str ("(" ++ pyStr left ++ " " ++ pyStr right ++ ")"))
                      else if pvEqStr opv "^" then
                        some (PyVal.str ("(" ++ pyStr left ++ "^" ++ pyStr right ++ ")"))
                      else
                        some (PyVal.str ("(" ++ pyStr left ++ " " ++ pyStr opv ++ " " ++ pyStr right ++ ")"))
            else
              opGeneric (expr_to_str fuel) opv args
        else
          opGeneric (expr_to_str fuel) opv args
    | NodeTag.other => some (PyVal.str "<?>")
  | _+1, _ => Option.none

/-- Whether the first character list has the second as a contiguous
leading block. -/
def listHasPre : List Char → List Char → Bool
  | _, [] => true
  | [], _ :: _ => false
  | h :: hs, n :: ns => h == n && listHasPre hs ns

/-- Whether the first character list contains the second as a contiguous
block, the semantics of the Python in operator on strings. -/
def listHasSub : List Char → List Char → Bool
  | [], needle => needle.isEmpty
  | h :: t, needle => listHasPre (h :: t) needle || listHasSub t needle

/-- Python substring containment: needle in hay. -/
def strContains (hay needle : String) : Bool :=
  listHasSub hay.data needle.data

/-- Python str.lower(), character by character; agrees with the source on
the ASCII identifiers the classifier is applied to. -/
def lowerStr (s : String) : String :=
  String.mk (s.data.map Char.toLower)

/-- The equation classifier classify_equation of parse_pde_jsons.py. -/
def classify_equation (eq_id : String) : String :=
  let lower := lowerStr eq_id
  if strContains lower "boundary" then "boundary"
  else if strContains lower "initial" then "initial"
  else if strContains lower "bc" then "boundary"
  else if strContains lower "ic" then "initial"
  else "pde"

/-- Output of a run of the printing routine: the lines printed before the
routine either finished (ok = true) or raised an exception (ok = false). -/
structure POut where
  lines : List String
  ok : Bool
deriving DecidableEq

/-- A single printed line. -/
def pEmit (l : String) : POut := ⟨[l], true⟩

/-- A raised exception with nothing printed at that point. -/
def pFail : POut := ⟨[], false⟩

/-- No output. -/
def pPure : POut := ⟨[], true⟩

/-- Sequencing of two printing steps: the second runs only when the first
did not raise, and lines already printed survive a later raise. -/
def pSeq (a b : POut) : POut :=
  if a.ok then ⟨a.lines ++ b.lines, b.ok⟩ else a

/-- All strings of a list of Python values, or Option.none when one of
them is not a string (the TypeError of str.join). -/
def strsOnly : List PyVal → Option (List String)
  | [] => some []
  | PyVal.str s :: rest => (strsOnly rest).map (fun l => s :: l)
  | _ => Option.none

/-- Python sep.join(v): joins the strings a value iterates to; elements of
a list must be strings, a string joins its characters, a dict joins its
keys, anything else raises. -/
def pyJoin (sep : String) (v : PyVal) : Option String :=
  match v with
  | PyVal.list xs => (strsOnly xs).map (String.intercalate sep)
  | PyVal.str s => some (String.intercalate sep (s.data.map Char.toString))
  | PyVal.dict kvs => some (String.intercalate sep (kvs.map Prod.fst))
  | _ => Option.none

/-- The location formatting of the initial-condition loop of
print_pde_file: a dict joins its entries as key=value with a question mark
for an empty dict, anything else is stringified. -/
def formatLocation (loc : PyVal) : String :=
  match loc with
  | PyVal.dict kvs =>
    match kvs with
    | [] => "?"
    | _ => String.intercalate ", " (kvs.map (fun kv => kv.1 ++ "=" ++ pyStr kv.2))
  | v => pyStr v

/-- The spec formatting of the boundary-condition loop of print_pde_file:
a string is used as-is, a dict joins its entries as key=value with a
question mark for an empty dict, anything else is stringified. -/
def formatSpec (spec : PyVal) : String :=
  match spec with
  | PyVal.str s => s
  | PyVal.dict kvs =>
    match kvs with
    | [] => "?"
    | _ => String.intercalate ", " (kvs.map (fun kv => kv.1 ++ "=" ++ pyStr kv.2))
  | v => pyStr v

/-- A domain bound: rendered through the expression renderer when it is a
dict, stringified otherwise, as in the domain loop of print_pde_file. -/
def exprOrStr (fuel : Nat) (v : PyVal) : Option String :=
  match v with
  | PyVal.dict kvs => (expr_to_str fuel (PyVal.dict kvs)).map pyStr
  | v => some (pyStr v)

/-- The header block of print_pde_file: the banner line with the metadata
name (or the file basename), then the description when it is truthy. -/
def headerOut (basename : String) (ms : List (String × PyVal)) : POut :=
  let name := (ms.lookup "name").getD (PyVal.str basename)
  let description := (ms.lookup "description").getD PyVal.none
  pSeq (pEmit ("\n=== " ++ pyStr name ++ " ==="))
    (if pyTruthy description then pEmit ("Description: " ++ pyStr description) else pPure)

/-- The variables block of print_pde_file. -/
def variablesOut (ds : List (String × PyVal)) : POut :=
  let vars0 := (ds.lookup "variables").getD (PyVal.dict [])
  if pyTruthy vars0 then
    match vars0 with
    | PyVal.dict vs =>
      let indep := (vs.lookup "independent").getD (PyVal.list [])
      let dep := (vs.lookup "dependent").getD (PyVal.list [])
      pSeq
        (if pyTruthy indep then
          match pyJoin ", " indep with
          | some s => pEmit ("Independent variables: " ++ s)
          | Option.none => pFail
         else pPure)
        (if pyTruthy dep then
          match pyJoin ", " dep with
          | some s => pEmit ("Dependent variables: " ++ s)
          | Option.none => pFail
         else pPure)
    | _ => pFail
  else pPure

/-- The parameters block of print_pde_file: a None value prints as
(unspecified), any other value prints after an equals sign. -/
def parametersOut (ds : List (String × PyVal)) : POut :=
  let parameters := (ds.lookup "parameters").getD (PyVal.dict [])
  if pyTruthy parameters then
    match parameters with
    | PyVal.dict ps =>
      let paramStrs := ps.map (fun kv =>
        match kv.2 with
        | PyVal.none => kv.1 ++ " (unspecified)"
        | v => kv.1 ++ " = " ++ pyStr v)
      match paramStrs with
      | [] => pPure
      | _ => pEmit ("Parameters: " ++ String.intercalate ", " paramStrs)
    | _ => pFail
  else pPure

/-- The rows of the domain block: an interval that is a two-element list
prints both bounds, any other entry is skipped silently. -/
def domainRows (fuel : Nat) : List (String × PyVal) → POut
  | [] => pPure
  | (var, interval) :: rest =>
    match interval with
    | PyVal.list [a, b] =>
      match exprOrStr fuel a with
      | Option.none => pFail
      | some aStr =>
        match exprOrStr fuel b with
        | Option.none => pFail
        | some bStr =>
          pSeq (pEmit ("  " ++ var ++ " ∈ [" ++ aStr ++ ", " ++ bStr ++ "]"))
            (domainRows fuel rest)
    | _ => domainRows fuel rest

/-- The domain block of print_pde_file. -/
def domainOut (fuel : Nat) (ds : List (String × PyVal)) : POut :=
  let domain := (ds.lookup "domain").getD PyVal.none
  if pyTruthy domain then
    match domain with
    | PyVal.dict dvs =>
      pSeq (pEmit "Domain:") (pSeq (domainRows fuel dvs) (pEmit ""))
    | _ => pFail
  else pPure

/-- Classification of an equation-id value: the source lowercases it, so a
non-string raises. -/
def classifyVal (v : PyVal) : Option String :=
  match v with
  | PyVal.str s => some (classify_equation s)
  | _ => Option.none

/-- The accumulation loop over the pdes list of print_pde_file: renders
both sides of each equation record and distributes the id/text pairs over
the three classification buckets in list order. -/
def collectEqs (fuel : Nat) : List PyVal → Option (List (String × String) × List (String × String) × List (String × String))
  | [] => some ([], [], [])
  | eq :: rest =>
    match eq with
    | PyVal.dict es =>
      let eqId := (es.lookup "equation_id").getD (PyVal.str "unknown")
      match expr_to_str fuel ((es.lookup "lhs").getD (PyVal.dict [])) with
      | Option.none => Option.none
      | some lhs =>
        match expr_to_str fuel ((es.lookup "rhs").getD (PyVal.dict [])) with
        | Option.none => Option.none
        | some rhs =>
          let eqStr := pyStr lhs ++ " = " ++ pyStr rhs
          match classifyVal eqId with
          | Option.none => Option.none
          | some cat =>
            (collectEqs fuel rest).map (fun acc =>
              if cat = "pde" then ((pyStr eqId, eqStr) :: acc.1, acc.2.1, acc.2.2)
              else if cat = "boundary" then (acc.1, (pyStr eqId, eqStr) :: acc.2.1, acc.2.2)
              else (acc.1, acc.2.1, (pyStr eqId, eqStr) :: acc.2.2))
    | _ => Option.none

/-- One printed line per classified equation. -/
def emitEqList (l : List (String × String)) : POut :=
  ⟨l.map (fun e => "  [" ++ e.1 ++ "]  " ++ e.2), true⟩

/-- The three grouped equation sections of print_pde_file, whose headers
print even when a bucket is empty. -/
def pdesOut (fuel : Nat) (ds : List (String × PyVal)) : POut :=
  let pdes := (ds.lookup "pdes").getD (PyVal.list [])
  match pyIterate pdes with
  | Option.none => pFail
  | some eqs =>
    match collectEqs fuel eqs with
    | Option.none => pFail
    | some acc =>
      pSeq (pEmit "\nPDE(s):") (pSeq (emitEqList acc.1)
        (pSeq (pEmit "\nBoundary condition(s) (from \x27pdes\x27):") (pSeq (emitEqList acc.2.1)
          (pSeq (pEmit "\nInitial condition(s) (from \x27pdes\x27):") (emitEqList acc.2.2)))))

/-- The per-record loop of the top-level initial_conditions section. -/
def emitICs (fuel : Nat) : List PyVal → POut
  | [] => pPure
  | ic :: rest =>
    match ic with
    | PyVal.dict is0 =>
      let dep := (is0.lookup "dep").getD (PyVal.str "?")
      let icType := (is0.lookup "type").getD (PyVal.str "ic")
      let loc := (is0.lookup "location").getD (PyVal.dict [])
      match expr_to_str fuel ((is0.lookup "value_expr").getD (PyVal.dict [])) with
      | Option.none => pFail
      | some ve =>
        let notes := (is0.lookup "notes").getD (PyVal.str "")
        let locStr := formatLocation loc
        let line := "  [" ++ pyStr icType ++ "] " ++ pyStr dep ++ " at " ++ locStr ++ ": " ++ pyStr ve
        let line := if pyTruthy notes then line ++ " (" ++ pyStr notes ++ ")" else line
        pSeq (pEmit line) (emitICs fuel rest)
    | _ => pFail

/-- The top-level initial_conditions section of print_pde_file. -/
def icOut (fuel : Nat) (ds : List (String × PyVal)) : POut :=
  let topIcs := (ds.lookup "initial_conditions").getD (PyVal.list [])
  if pyTruthy topIcs then
    match pyIterate topIcs with
    | Option.none => pFail
    | some ics =>
      pSeq (pEmit "\nInitial condition(s) (from \x27initial_conditions\x27):") (emitICs fuel ics)
  else pPure

/-- The per-record loop of the top-level boundary_conditions section. -/
def emitBCs (fuel : Nat) : List PyVal → POut
  | [] => pPure
  | bc :: rest =>
    match bc with
    | PyVal.dict bs0 =>
      let dep := (bs0.lookup "dep").getD (PyVal.str "?")
      let bcType := (bs0.lookup "type").getD (PyVal.str "?")
      let spec := (bs0.lookup "spec").getD (PyVal.dict [])
      match expr_to_str fuel ((bs0.lookup "value_expr").getD (PyVal.dict [])) with
      | Option.none => pFail
      | some ve =>
        let notes := (bs0.lookup "notes").getD (PyVal.str "")
        let specStr := formatSpec spec
        let line := "  [" ++ pyStr bcType ++ "] " ++ pyStr dep ++ " at " ++ specStr ++ ": " ++ pyStr ve
        let line := if pyTruthy notes then line ++ " (" ++ pyStr notes ++ ")" else line
        pSeq (pEmit line) (emitBCs fuel rest)
    | _ => pFail

/-- The top-level boundary_conditions section of print_pde_file. -/
def bcOut (fuel : Nat) (ds : List (String × PyVal)) : POut :=
  let topBcs := (ds.lookup "boundary_conditions").getD (PyVal.list [])
  if pyTruthy topBcs then
    match pyIterate topBcs with
    | Option.none => pFail
    | some bcs =>
      pSeq (pEmit "\nBoundary condition(s) (from \x27boundary_conditions\x27):") (emitBCs fuel bcs)
  else pPure

/-- The document renderer print_pde_file of parse_pde_jsons.py, over a
document already decoded from JSON; the path argument of the source enters
only through its basename as the fallback document name.  Each block of
the source appears as one definition, sequenced in source order. -/
def print_pde_file (fuel : Nat) (basename : String) (data : PyVal) : POut :=
  match data with
  | PyVal.dict ds =>
    match (ds.lookup "metadata").getD (PyVal.dict []) with
    | PyVal.dict ms =>
      pSeq (headerOut basename ms)
        (pSeq (variablesOut ds)
          (pSeq (parametersOut ds)
            (pSeq (domainOut fuel ds)
              (pSeq (pdesOut fuel ds)
                (pSeq (icOut fuel ds)
                  (bcOut fuel ds))))))
    | _ => pFail
  | _ => pFail

/-- Python str.strip(): whitespace removed from both ends. -/
def pyStrip (s : String) : String :=
  String.mk (((s.data.dropWhile Char.isWhitespace).reverse.dropWhile Char.isWhitespace).reverse)

/-- Whether a string begins with the given block, Python str.startswith. -/
def strStartsWith (s p : String) : Bool :=
  listHasPre s.data p.data

/-- Splitting worker over character lists with a fuel bound equal to the
length of the text, which always suffices since a found separator consumes
at least one character. -/
def splitOnAuxL (sep : List Char) : Nat → List Char → List Char → List (List Char)
  | _, [], acc => [acc.reverse]
  | 0, hay, acc => [acc.reverse ++ hay]
  | f+1, h :: t, acc =>
    if listHasPre (h :: t) sep then
      acc.reverse :: splitOnAuxL sep f ((h :: t).drop sep.length) []
    else
      splitOnAuxL sep f t (h :: acc)

/-- Python str.split with a non-empty separator, left to right and
non-overlapping, keeping empty pieces. -/
def pySplit (s : String) (sep : String) : List String :=
  (splitOnAuxL sep.data s.data.length s.data []).map String.mk

/-- Python max(candidates, key=len): the earliest string of maximal
length. -/
def longestStr (c : String) : List String → String
  | [] => c
  | x :: xs => if c.data.length < x.data.length then longestStr x xs else longestStr c xs

/-- The code-fence stripping of convert_pde_to_json_file: when the reply
starts with a fence, split on the fence marks, strip each part, drop the
empty ones, and keep the longest candidate; otherwise the reply is used
unchanged. -/
def stripCodeFences (content : String) : String :=
  if strStartsWith content "```" then
    let parts := pySplit content "```"
    let candidates := (parts.map pyStrip).filter (fun p => !p.data.isEmpty)
    match candidates with
    | [] => content
    | c :: cs => longestStr c cs
  else content

/-- The per-document tail of convert_pde_to_json_file of
generate_pde_jsons.py, from the returned reply text onward: strip the
reply, strip optional code fences, parse it as JSON, and either return the
output path under the output directory (the file write itself is an
external effect) or raise the ValueError whose message embeds the raw
content.  The external collaborators are explicit arguments: parseJson
stands for json.loads, rawContent for the text the generator returned. -/
def convert_pde_to_json_file (parseJson : String → Option PyVal) (pdeName : String) (rawContent : String) : Except String String :=
  let content := pyStrip rawContent
  let content2 := stripCodeFences content
  match parseJson content2 with
  | some _data => Except.ok ("random_pde_jsons/" ++ pdeName ++ ".json")
  | Option.none => Except.error ("Model did not return valid JSON. Raw content:\n" ++ content2)

/-- The batch loop of main in generate_from_example_pdes.py: documents are
converted in order with no exception handler around the call, so a raised
ValueError propagates; the first component lists the saved output paths
of the documents processed after the current point, the second carries the
escaped error, if any.  Entries pair each document name with the reply
text the generator returned for it. -/
def batch_generate (parseJson : String → Option PyVal) : List (String × String) → List String × Option String
  | [] => ([], Option.none)
  | (name, content) :: rest =>
    match convert_pde_to_json_file parseJson name content with
    | Except.error e => ([], some e)
    | Except.ok path =>
      let r := batch_generate parseJson rest
      (path :: r.1, r.2)

/-- The mapping formatting stated word for word by the specification and
claim C7 for condition locations and specs: a mapping renders as its
entries joined as key=value, a string is used as-is, any other value is
stringified.  Note the empty mapping renders as the empty join here. -/
def specMapFmt (v : PyVal) : String :=
  match v with
  | PyVal.str s => s
  | PyVal.dict kvs => String.intercalate ", " (kvs.map (fun kv => kv.1 ++ "=" ++ pyStr kv.2))
  | v => pyStr v

/-- The mapping formatting of the claim amended by the code: as specMapFmt
except that an empty mapping renders as a question mark. -/
def specMapFmtFixed (v : PyVal) : String :=
  match v with
  | PyVal.str s => s
  | PyVal.dict [] => "?"
  | PyVal.dict kvs => String.intercalate ", " (kvs.map (fun kv => kv.1 ++ "=" ++ pyStr kv.2))
  | v => pyStr v

/-- The initial-condition records rendered with an arbitrary
location formatter, for comparing the code with the formatting the claim
states. -/
def emitICsWith (fmt : PyVal → String) (fuel : Nat) : List PyVal → POut
  | [] => pPure
  | ic :: rest =>
    match ic with
    | PyVal.dict is0 =>
      let dep := (is0.lookup "dep").getD (PyVal.str "?")
      let icType := (is0.lookup "type").getD (PyVal.str "ic")
      let loc := (is0.lookup "location").getD (PyVal.dict [])
      match expr_to_str fuel ((is0.lookup "value_expr").getD (PyVal.dict [])) with
      | Option.none => pFail
      | some ve =>
        let notes := (is0.lookup "notes").getD (PyVal.str "")
        let line := "  [" ++ pyStr icType ++ "] " ++ pyStr dep ++ " at " ++ fmt loc ++ ": " ++ pyStr ve
        let line := if pyTruthy notes then line ++ " (" ++ pyStr notes ++ ")" else line
        pSeq (pEmit line) (emitICsWith fmt fuel rest)
    | _ => pFail

/-- The boundary-condition records rendered with an arbitrary spec
formatter. -/
def emitBCsWith (fmt : PyVal → String) (fuel : Nat) : List PyVal → POut
  | [] => pPure
  | bc :: rest =>
    match bc with
    | PyVal.dict bs0 =>
      let dep := (bs0.lookup "dep").getD (PyVal.str "?")
      let bcType := (bs0.lookup "type").getD (PyVal.str "?")
      let spec := (bs0.lookup "spec").getD (PyVal.dict [])
      match expr_to_str fuel ((bs0.lookup "value_expr").getD (PyVal.dict [])) with
      | Option.none => pFail
      | some ve =>
        let notes := (bs0.lookup "notes").getD (PyVal.str "")
        let line := "  [" ++ pyStr bcType ++ "] " ++ pyStr dep ++ " at " ++ fmt spec ++ ": " ++ pyStr ve
        let line := if pyTruthy notes then line ++ " (" ++ pyStr notes ++ ")" else line
        pSeq (pEmit line) (emitBCsWith fmt fuel rest)
    | _ => pFail

/-- The initial-conditions section with an arbitrary location
formatter. -/
def icOutWith (fmt : PyVal → String) (fuel : Nat) (ds : List (String × PyVal)) : POut :=
  let topIcs := (ds.lookup "initial_conditions").getD (PyVal.list [])
  if pyTruthy topIcs then
    match pyIterate topIcs with
    | Option.none => pFail
    | some ics =>
      pSeq (pEmit "\nInitial condition(s) (from \x27initial_conditions\x27):") (emitICsWith fmt fuel ics)
  else pPure

/-- The boundary-conditions section with an arbitrary spec formatter. -/
def bcOutWith (fmt : PyVal → String) (fuel : Nat) (ds : List (String × PyVal)) : POut :=
  let topBcs := (ds.lookup "boundary_conditions").getD (PyVal.list [])
  if pyTruthy topBcs then
    match pyIterate topBcs with
    | Option.none => pFail
    | some bcs =>
      pSeq (pEmit "\nBoundary condition(s) (from \x27boundary_conditions\x27):") (emitBCsWith fmt fuel bcs)
  else pPure

/-- Rendering of one equation record to its id text, its equation text
and its classification, as the specification describes the grouping
input. -/
def renderEq (fuel : Nat) (eq : PyVal) : Option (String × String × String) :=
  match eq with
  | PyVal.dict es =>
    let eqId := (es.lookup "equation_id").getD (PyVal.str "unknown")
    match expr_to_str fuel ((es.lookup "lhs").getD (PyVal.dict [])) with
    | Option.none => Option.none
    | some lhs =>
      match expr_to_str fuel ((es.lookup "rhs").getD (PyVal.dict [])) with
      | Option.none => Option.none
      | some rhs =>
        match classifyVal eqId with
        | Option.none => Option.none
        | some cat => some (pyStr eqId, pyStr lhs ++ " = " ++ pyStr rhs, cat)
  | _ => Option.none

/-- Rendering of every equation record in order. -/
def renderEqs (fuel : Nat) : List PyVal → Option (List (String × String × String))
  | [] => some []
  | eq :: rest =>
    match renderEq fuel eq with
    | Option.none => Option.none
    | some t => (renderEqs fuel rest).map (fun l => t :: l)

/-- The equations of one classification bucket, in input order, as the
specification describes grouping. -/
def eqsOfCat (cat : String) (l : List (String × String × String)) : List (String × String) :=
  (l.filter (fun t => t.2.2 = cat)).map (fun t => (t.1, t.2.1))

/-- The grouped equation sections as the specification words them: the
equations under pdes rendered in order and grouped by classification,
each bucket under its header. -/
def pdesSectionSpec (fuel : Nat) (ds : List (String × PyVal)) : POut :=
  let pdes := (ds.lookup "pdes").getD (PyVal.list [])
  match pyIterate pdes with
  | Option.none => pFail
  | some eqs =>
    match renderEqs fuel eqs with
    | Option.none => pFail
    | some l =>
      pSeq (pEmit "\nPDE(s):") (pSeq (emitEqList (eqsOfCat "pde" l))
        (pSeq (pEmit "\nBoundary condition(s) (from \x27pdes\x27):") (pSeq (emitEqList (eqsOfCat "boundary" l))
          (pSeq (pEmit "\nInitial condition(s) (from \x27pdes\x27):") (emitEqList (eqsOfCat "initial" l))))))

/-- The document rendering stated by the specification and claim C7,
parameterized by the formatter applied to condition locations and specs:
sections in the fixed order header, variable lists, parameter list,
domain intervals, equations under pdes grouped by classification, then
the top-level initial and boundary condition lists; missing optional
fields produce no output. -/
def renderDocumentWith (fmt : PyVal → String) (fuel : Nat) (basename : String) (data : PyVal) : POut :=
  match data with
  | PyVal.dict ds =>
    match (ds.lookup "metadata").getD (PyVal.dict []) with
    | PyVal.dict ms =>
      pSeq (headerOut basename ms)
        (pSeq (variablesOut ds)
          (pSeq (parametersOut ds)
            (pSeq (domainOut fuel ds)
              (pSeq (pdesSectionSpec fuel ds)
                (pSeq (icOutWith fmt fuel ds)
                  (bcOutWith fmt fuel ds))))))
    | _ => pFail
  | _ => pFail

/-- The document rendering exactly as claim C7 words it, with a mapping
location or spec rendered as its entries joined as key=value even when
the mapping is empty. -/
def renderDocumentPerClaim (fuel : Nat) (basename : String) (data : PyVal) : POut :=
  renderDocumentWith specMapFmt fuel basename data

/-- The document rendering of the claim as amended: an empty mapping
location or spec renders as a question mark. -/
def renderDocumentPerClaimFixed (fuel : Nat) (basename : String) (data : PyVal) : POut :=
  renderDocumentWith specMapFmtFixed fuel basename data

/-- Whether an optional type field holds one of the seven tags the
renderer recognizes. -/
def recognizedTag : Option PyVal → Bool
  | some (PyVal.str s) =>
      (s == "deriv") || (s == "dep") || (s == "param") || (s == "const") ||
      (s == "var") || (s == "fn") || (s == "op")
  | _ => false

/-- A document whose single initial condition carries an empty mapping as
its location. -/
def emptyLocDoc : PyVal :=
  PyVal.dict [("initial_conditions", PyVal.list [PyVal.dict
    [("location", PyVal.dict []),
     ("value_expr", PyVal.dict [("type", PyVal.str "const"), ("value", PyVal.int 0)])]])]

/-- A JSON parsing stub that accepts exactly the reply text ok, standing
for an external generator that returns invalid JSON for the first
document of a batch and valid JSON for the second. -/
def parseSecondOnly : String → Option PyVal :=
  fun s => if s = "ok" then some PyVal.none else Option.none

/-- C4: a deriv node with dep d, wrt w and order n renders as ∂d/∂w when
n equals one, and as ∂^n d over ∂ w ^n when n is greater than one. -/
theorem deriv_rendering (d w : String) (n : Int) (fuel : Nat) :
    (n = 1 →
      expr_to_str (fuel+1) (PyVal.dict [("type", PyVal.str "deriv"), ("dep", PyVal.str d), ("wrt", PyVal.str w), ("order", PyVal.int n)]) =
        some (PyVal.str ("∂" ++ d ++ "/∂" ++ w)))
    ∧ (1 < n →
      expr_to_str (fuel+1) (PyVal.dict [("type", PyVal.str "deriv"), ("dep", PyVal.str d), ("wrt", PyVal.str w), ("order", PyVal.int n)]) =
        some (PyVal.str ("∂^" ++ toString n ++ d ++ "/∂" ++ w ++ "^" ++ toString n))) := by
  constructor
  · intro h; subst h; rfl
  · intro h
    have hne : pyEqInt (PyVal.int n) 1 = false := by
      simp [pyEqInt]; omega
    simp +decide [expr_to_str, nodeTag, List.lookup, hne, pyStr, pyRepr]

/-- C4 witness: the two documented examples at order one and order two. -/
theorem deriv_rendering_witness :
    expr_to_str 1 (PyVal.dict [("type", PyVal.str "deriv"), ("dep", PyVal.str "u"), ("wrt", PyVal.str "x"), ("order", PyVal.int 1)]) = some (PyVal.str "∂u/∂x")
    ∧ expr_to_str 1 (PyVal.dict [("type", PyVal.str "deriv"), ("dep", PyVal.str "u"), ("wrt", PyVal.str "x"), ("order", PyVal.int 2)]) = some (PyVal.str "∂^2u/∂x^2") :=
  ⟨(deriv_rendering "u" "x" 1 0).1 rfl, (deriv_rendering "u" "x" 2 0).2 (by norm_num)⟩

/-- C9: a deriv node with no order key at all is rendered with the
default order of one. -/
theorem deriv_missing_order (d w : String) (fuel : Nat) :
    expr_to_str (fuel+1) (PyVal.dict [("type", PyVal.str "deriv"), ("dep", PyVal.str d), ("wrt", PyVal.str w)]) =
      some (PyVal.str ("∂" ++ d ++ "/∂" ++ w)) := rfl

/-- An unrecognized type-tag value dispatches to the placeholder
branch. -/
theorem nodeTag_other_of_unrecognized (t : Option PyVal)
    (h : recognizedTag t = false) : nodeTag t = NodeTag.other := by
  cases t with
  | none => rfl
  | some v =>
    cases v with
    | str s =>
      simp [recognizedTag] at h
      simp only [nodeTag]
      split_ifs <;> simp_all
    | none => rfl
    | bool b => rfl
    | int n => rfl
    | list xs => rfl
    | dict kvs => rfl

/-- C6: a dict node whose type tag is not one of the seven recognized
tags renders to the sentinel placeholder without raising. -/
theorem unknown_tag_placeholder (kvs : List (String × PyVal)) (fuel : Nat)
    (h : recognizedTag (kvs.lookup "type") = false) :
    expr_to_str (fuel+1) (PyVal.dict kvs) = some (PyVal.str "<?>") := by
  have ht := nodeTag_other_of_unrecognized (kvs.lookup "type") h
  simp [expr_to_str, ht]

/-- C6 witness: the mystery node of the specification. -/
theorem unknown_tag_placeholder_witness :
    expr_to_str 4 (PyVal.dict [("type", PyVal.str "mystery")]) = some (PyVal.str "<?>") :=
  unknown_tag_placeholder [("type", PyVal.str "mystery")] 3 (by decide)

/-- C1 counterexample: a node with the recognized tag dep but no name
field makes the renderer raise a KeyError, modelled as Option.none,
rather than produce a placeholder string. -/
theorem render_missing_name_raises :
    expr_to_str 5 (PyVal.dict [("type", PyVal.str "dep")]) = Option.none := rfl

/-- C1 amended: the renderer turns an unrecognized tag into the sentinel
placeholder, but a node with a recognized tag whose required field (name,
value, op, dep or wrt) is missing raises a KeyError that aborts the
render. -/
theorem render_partial_on_missing_fields (kvs : List (String × PyVal)) (fuel : Nat) :
    (recognizedTag (kvs.lookup "type") = false →
      expr_to_str (fuel+1) (PyVal.dict kvs) = some (PyVal.str "<?>"))
  ∧ (kvs.lookup "type" = some (PyVal.str "dep") → kvs.lookup "name" = Option.none →
      expr_to_str (fuel+1) (PyVal.dict kvs) = Option.none)
  ∧ (kvs.lookup "type" = some (PyVal.str "param") → kvs.lookup "name" = Option.none →
      expr_to_str (fuel+1) (PyVal.dict kvs) = Option.none)
  ∧ (kvs.lookup "type" = some (PyVal.str "var") → kvs.lookup "name" = Option.none →
      expr_to_str (fuel+1) (PyVal.dict kvs) = Option.none)
  ∧ (kvs.lookup "type" = some (PyVal.str "const") → kvs.lookup "value" = Option.none →
      expr_to_str (fuel+1) (PyVal.dict kvs) = Option.none)
  ∧ (kvs.lookup "type" = some (PyVal.str "fn") → kvs.lookup "name" = Option.none →
      expr_to_str (fuel+1) (PyVal.dict kvs) = Option.none)
  ∧ (kvs.lookup "type" = some (PyVal.str "op") → kvs.lookup "op" = Option.none →
      expr_to_str (fuel+1) (PyVal.dict kvs) = Option.none)
  ∧ (kvs.lookup "type" = some (PyVal.str "deriv") → kvs.lookup "dep" = Option.none →
      expr_to_str (fuel+1) (PyVal.dict kvs) = Option.none)
  ∧ (∀ dv, kvs.lookup "type" = some (PyVal.str "deriv") → kvs.lookup "dep" = some dv →
      kvs.lookup "wrt" = Option.none →
      expr_to_str (fuel+1) (PyVal.dict kvs) = Option.none) := by
  refine ⟨?_, ?_, ?_, ?_, ?_, ?_, ?_, ?_, ?_⟩
  · intro h
    have ht := nodeTag_other_of_unrecognized (kvs.lookup "type") h
    simp [expr_to_str, ht]
  · intro h1 h2; simp +decide [expr_to_str, nodeTag, h1, h2]
  · intro h1 h2; simp +decide [expr_to_str, nodeTag, h1, h2]
  · intro h1 h2; simp +decide [expr_to_str, nodeTag, h1, h2]
  · intro h1 h2; simp +decide [expr_to_str, nodeTag, h1, h2]
  · intro h1 h2; simp +decide [expr_to_str, nodeTag, h1, h2]
  · intro h1 h2; simp +decide [expr_to_str, nodeTag, h1, h2]
  · intro h1 h2; simp +decide [expr_to_str, nodeTag, h1, h2]
  · intro dv h1 h2 h3; simp +decide [expr_to_str, nodeTag, h1, h2, h3]

/-- C1 amended witness: a dep node with no name raises, a mystery node
renders the placeholder. -/
theorem render_partial_on_missing_fields_witness :
    expr_to_str 3 (PyVal.dict [("type", PyVal.str "dep")]) = Option.none
    ∧ expr_to_str 3 (PyVal.dict [("type", PyVal.str "x")]) = some (PyVal.str "<?>") :=
  ⟨(render_partial_on_missing_fields [("type", PyVal.str "dep")] 2).2.1 rfl rfl,
   (render_partial_on_missing_fields [("type", PyVal.str "x")] 2).1 (by decide)⟩

/-- C10: an empty mapping location or spec renders as the question-mark
placeholder, a non-empty one as its entries joined as key=value with a
comma separator. -/
theorem condition_mapping_formatting (kvs : List (String × PyVal)) :
    formatLocation (PyVal.dict []) = "?"
    ∧ formatSpec (PyVal.dict []) = "?"
    ∧ (kvs ≠ [] →
        formatLocation (PyVal.dict kvs) =
          String.intercalate ", " (kvs.map (fun kv => kv.1 ++ "=" ++ pyStr kv.2)))
    ∧ (kvs ≠ [] →
        formatSpec (PyVal.dict kvs) =
          String.intercalate ", " (kvs.map (fun kv => kv.1 ++ "=" ++ pyStr kv.2))) := by
  refine ⟨rfl, rfl, ?_, ?_⟩ <;>
    · intro h
      cases kvs with
      | nil => exact absurd rfl h
      | cons kv rest => rfl

/-- C10 witness: a singleton mapping joins to its one entry. -/
theorem condition_mapping_formatting_witness :
    formatLocation (PyVal.dict [("t", PyVal.int 0)]) = "t=0"
    ∧ formatSpec (PyVal.dict [("x", PyVal.int 0)]) = "x=0" :=
  ⟨(condition_mapping_formatting [("t", PyVal.int 0)]).2.2.1 (List.cons_ne_nil _ _),
   (condition_mapping_formatting [("x", PyVal.int 0)]).2.2.2 (List.cons_ne_nil _ _)⟩

/-- The classifier can only produce one of its three category strings. -/
theorem classify_total (s : String) :
    classify_equation s = "pde" ∨ classify_equation s = "boundary" ∨ classify_equation s = "initial" := by
  simp only [classify_equation]
  split_ifs <;> tauto

/-- C5: classification is total over the three categories, depends only on
the lowercased id, and applies its substring rules in the fixed order
boundary, initial, bc, ic with first match winning, falling back to
pde. -/
theorem classify_equation_spec (id : String) :
    (classify_equation id = "pde" ∨ classify_equation id = "boundary" ∨ classify_equation id = "initial")
  ∧ (∀ id2 : String, lowerStr id = lowerStr id2 → classify_equation id = classify_equation id2)
  ∧ (strContains (lowerStr id) "boundary" = true → classify_equation id = "boundary")
  ∧ (strContains (lowerStr id) "boundary" = false →
      strContains (lowerStr id) "initial" = true → classify_equation id = "initial")
  ∧ (strContains (lowerStr id) "boundary" = false →
      strContains (lowerStr id) "initial" = false →
      strContains (lowerStr id) "bc" = true → classify_equation id = "boundary")
  ∧ (strContains (lowerStr id) "boundary" = false →
      strContains (lowerStr id) "initial" = false →
      strContains (lowerStr id) "bc" = false →
      strContains (lowerStr id) "ic" = true → classify_equation id = "initial")
  ∧ (strContains (lowerStr id) "boundary" = false →
      strContains (lowerStr id) "initial" = false →
      strContains (lowerStr id) "bc" = false →
      strContains (lowerStr id) "ic" = false → classify_equation id = "pde") := by
  refine ⟨classify_total id, ?_, ?_, ?_, ?_, ?_, ?_⟩
  · intro id2 h; simp [classify_equation, h]
  · intro h1; simp [classify_equation, h1]
  · intro h1 h2; simp [classify_equation, h1, h2]
  · intro h1 h2 h3; simp [classify_equation, h1, h2, h3]
  · intro h1 h2 h3 h4; simp [classify_equation, h1, h2, h3, h4]
  · intro h1 h2 h3 h4; simp [classify_equation, h1, h2, h3, h4]

/-- C5 witness: the documented classifications, among them the id that
contains both ic and boundary and classifies as boundary. -/
theorem classify_equation_spec_witness :
    classify_equation "ic_boundary" = "boundary"
    ∧ classify_equation "bc_u_left" = "boundary"
    ∧ classify_equation "IC_u" = "initial"
    ∧ classify_equation "u_momentum" = "pde" :=
  ⟨(classify_equation_spec "ic_boundary").2.2.1 (by decide),
   (classify_equation_spec "bc_u_left").2.2.2.2.1 (by decide) (by decide) (by decide),
   (classify_equation_spec "IC_u").2.2.2.2.2.1 (by decide) (by decide) (by decide) (by decide),
   (classify_equation_spec "u_momentum").2.2.2.2.2.2 (by decide) (by decide) (by decide) (by decide)⟩

/-- C3: an op node with one of the five binary operators and exactly two
arguments renders infix, with juxtaposition for the product and no space
around the caret, while any op node with an argument count other than two
or an operator outside the set renders in the generic prefixed form with
arguments joined by a comma. -/
theorem op_rendering (op : String) (a b la lb : PyVal) (args : List PyVal) (strs : List String) (fuel : Nat) :
    ((op = "+" ∨ op = "-" ∨ op = "/") →
      expr_to_str fuel a = some la → expr_to_str fuel b = some lb →
      expr_to_str (fuel+1) (PyVal.dict [("type", PyVal.str "op"), ("op", PyVal.str op), ("args", PyVal.list [a, b])]) =
        some (PyVal.str ("(" ++ pyStr la ++ " " ++ op ++ " " ++ pyStr lb ++ ")")))
  ∧ (expr_to_str fuel a = some la → expr_to_str fuel b = some lb →
      expr_to_str (fuel+1) (PyVal.dict [("type", PyVal.str "op"), ("op", PyVal.str "*"), ("args", PyVal.list [a, b])]) =
        some (PyVal.str ("(" ++ pyStr la ++ " " ++ pyStr lb ++ ")")))
  ∧ (expr_to_str fuel a = some la → expr_to_str fuel b = some lb →
      expr_to_str (fuel+1) (PyVal.dict [("type", PyVal.str "op"), ("op", PyVal.str "^"), ("args", PyVal.list [a, b])]) =
        some (PyVal.str ("(" ++ pyStr la ++ "^" ++ pyStr lb ++ ")")))
  ∧ (args.length ≠ 2 → mapRenderStrs (expr_to_str fuel) args = some strs →
      expr_to_str (fuel+1) (PyVal.dict [("type", PyVal.str "op"), ("op", PyVal.str op), ("args", PyVal.list args)]) =
        some (PyVal.str (op ++ "(" ++ String.intercalate ", " strs ++ ")")))
  ∧ (isBinOp (PyVal.str op) = false → mapRenderStrs (expr_to_str fuel) args = some strs →
      expr_to_str (fuel+1) (PyVal.dict [("type", PyVal.str "op"), ("op", PyVal.str op), ("args", PyVal.list args)]) =
        some (PyVal.str (op ++ "(" ++ String.intercalate ", " strs ++ ")"))) := by
  refine ⟨?_, ?_, ?_, ?_, ?_⟩
  · rintro (rfl | rfl | rfl) h1 h2 <;>
      simp +decide [expr_to_str, nodeTag, List.lookup, isBinOp, pyLen, pyIndex, pvEqStr, h1, h2, pyStr]
  · intro h1 h2
    simp +decide [expr_to_str, nodeTag, List.lookup, isBinOp, pyLen, pyIndex, pvEqStr, h1, h2, pyStr]
  · intro h1 h2
    simp +decide [expr_to_str, nodeTag, List.lookup, isBinOp, pyLen, pyIndex, pvEqStr, h1, h2, pyStr]
  · intro hlen h2
    by_cases hb : isBinOp (PyVal.str op) = true
    · simp +decide [expr_to_str, nodeTag, List.lookup, pyLen, hb, hlen, opGeneric, renderJoinArgs, h2, pyStr]
    · simp only [Bool.not_eq_true] at hb
      simp +decide [expr_to_str, nodeTag, List.lookup, hb, opGeneric, renderJoinArgs, h2, pyStr]
  · intro hb h2
    simp +decide [expr_to_str, nodeTag, List.lookup, hb, opGeneric, renderJoinArgs, h2, pyStr]

/-- Lifting a pointwise strengthening of the renderer through the
argument-list rendering. -/
theorem mapRenderStrs_mono {p q : PyVal → Option PyVal}
    (hpq : ∀ x r, p x = some r → q x = some r) :
    ∀ xs l, mapRenderStrs p xs = some l → mapRenderStrs q xs = some l := by
  intro xs
  induction xs with
  | nil => intro l h; exact h
  | cons x rest ih =>
    intro l h
    simp only [mapRenderStrs] at h ⊢
    cases hx : p x with
    | none => rw [hx] at h; simp at h
    | some v =>
      rw [hx] at h
      cases v with
      | str s =>
        rw [hpq x (PyVal.str s) hx]
        simp only [] at h ⊢
        rcases Option.map_eq_some'.mp h with ⟨l', hl', rfl⟩
        rw [ih l' hl']
        rfl
      | none => simp at h
      | bool b => simp at h
      | int n => simp at h
      | list xs => simp at h
      | dict kvs => simp at h

/-- Lifting a pointwise strengthening of the renderer through the joined
argument rendering. -/
theorem renderJoinArgs_mono {p q : PyVal → Option PyVal}
    (hpq : ∀ x r, p x = some r → q x = some r) :
    ∀ args s, renderJoinArgs p args = some s → renderJoinArgs q args = some s := by
  intro args s h
  cases args <;> simp only [renderJoinArgs] at h ⊢ <;> try exact h
  case list xs =>
    rcases Option.map_eq_some'.mp h with ⟨l, hl, rfl⟩
    rw [mapRenderStrs_mono hpq xs l hl]
    rfl

/-- Lifting a pointwise strengthening of the renderer through the generic
operator rendering. -/
theorem opGeneric_mono {p q : PyVal → Option PyVal}
    (hpq : ∀ x r, p x = some r → q x = some r) :
    ∀ opv args r, opGeneric p opv args = some r → opGeneric q opv args = some r := by
  intro opv args r h
  simp only [opGeneric] at h ⊢
  cases hj : renderJoinArgs p args with
  | none => rw [hj] at h; simp at h
  | some inner =>
    rw [hj] at h
    rw [renderJoinArgs_mono hpq args inner hj]
    exact h

/-- A successful render stays unchanged when the fuel bound grows. -/
theorem expr_to_str_mono :
    ∀ (f : Nat) (v : PyVal) (r : PyVal), expr_to_str f v = some r →
      ∀ g, f ≤ g → expr_to_str g v = some r := by
  intro f
  induction f with
  | zero => intro v r h; simp [expr_to_str] at h
  | succ f ih =>
    intro v r h g hg
    obtain ⟨g', rfl⟩ : ∃ g', g = g' + 1 := ⟨g - 1, by omega⟩
    have hrec : ∀ x rx, expr_to_str f x = some rx → expr_to_str g' x = some rx :=
      fun x rx hx => ih x rx hx g' (by omega)
    cases v with
    | none => simp [expr_to_str] at h
    | bool b => simp [expr_to_str] at h
    | int n => simp [expr_to_str] at h
    | str s => simp [expr_to_str] at h
    | list xs => simp [expr_to_str] at h
    | dict kvs =>
      simp only [expr_to_str] at h ⊢
      cases ht : nodeTag (kvs.lookup "type") with
      | deriv => rw [ht] at h; exact h
      | dep => rw [ht] at h; exact h
      | param => rw [ht] at h; exact h
      | const => rw [ht] at h; exact h
      | var => rw [ht] at h; exact h
      | other => rw [ht] at h; exact h
      | fn =>
        rw [ht] at h
        simp only [] at h ⊢
        cases hn : kvs.lookup "name" with
        | none => rw [hn] at h; simp at h
        | some nm =>
          rw [hn] at h
          simp only [] at h ⊢
          cases hj : renderJoinArgs (expr_to_str f) ((kvs.lookup "args").getD (PyVal.list [])) with
          | none => rw [hj] at h; simp at h
          | some inner =>
            rw [hj] at h
            rw [renderJoinArgs_mono hrec _ inner hj]
            exact h
      | op =>
        rw [ht] at h
        simp only [] at h ⊢
        cases ho : kvs.lookup "op" with
        | none => rw [ho] at h; simp at h
        | some opv =>
          rw [ho] at h
          simp only [] at h ⊢
          by_cases hb : isBinOp opv = true
          · rw [if_pos hb] at h ⊢
            cases hl : pyLen ((kvs.lookup "args").getD (PyVal.list [])) with
            | none => rw [hl] at h; simp at h
            | some nn =>
              rw [hl] at h
              simp only [] at h ⊢
              by_cases h2 : nn = 2
              · subst h2
                rw [if_pos rfl] at h ⊢
                cases hi0 : pyIndex ((kvs.lookup "args").getD (PyVal.list [])) 0 with
                | none => rw [hi0] at h; simp at h
                | some a0 =>
                  rw [hi0] at h
                  simp only [] at h ⊢
                  cases he0 : expr_to_str f a0 with
                  | none => rw [he0] at h; simp at h
                  | some left =>
                    rw [he0] at h
                    rw [hrec a0 left he0]
                    simp only [] at h ⊢
                    cases hi1 : pyIndex ((kvs.lookup "args").getD (PyVal.list [])) 1 with
                    | none => rw [hi1] at h; simp at h
                    | some a1 =>
                      rw [hi1] at h
                      simp only [] at h ⊢
                      cases he1 : expr_to_str f a1 with
                      | none => rw [he1] at h; simp at h
                      | some right =>
                        rw [he1] at h
                        rw [hrec a1 right he1]
                        exact h
              · rw [if_neg h2] at h ⊢
                exact opGeneric_mono hrec _ _ r h
          · rw [if_neg hb] at h ⊢
            exact opGeneric_mono hrec _ _ r h

/-- C8: rendering is deterministic: two successful renders of the same
node, under any two fuel bounds, return the same result; the embedding is
a pure function, so rendering cannot mutate its input. -/
theorem render_deterministic (v : PyVal) (f1 f2 : Nat) (r1 r2 : PyVal)
    (h1 : expr_to_str f1 v = some r1) (h2 : expr_to_str f2 v = some r2) : r1 = r2 := by
  rcases Nat.le_total f1 f2 with hle | hle
  · have h3 := expr_to_str_mono f1 v r1 h1 f2 hle
    rw [h3] at h2
    exact Option.some.inj h2
  · have h3 := expr_to_str_mono f2 v r2 h2 f1 hle
    rw [h3] at h1
    exact (Option.some.inj h1).symm

/-- C8 witness: two renders of the same dep node agree. -/
theorem render_deterministic_witness : PyVal.str "u" = PyVal.str "u" :=
  render_deterministic (PyVal.dict [("type", PyVal.str "dep"), ("name", PyVal.str "u")]) 1 2
    (PyVal.str "u") (PyVal.str "u") rfl rfl

/-- C2 counterexample: with a generator whose first reply is not JSON and
whose second reply is, the batch run saves nothing and escapes with the
ValueError of the first document, although the second document alone
would have been saved; the remaining documents are not processed. -/
theorem batch_abort_counterexample :
    batch_generate parseSecondOnly [("a", "bad"), ("b", "ok")] =
      ([], some "Model did not return valid JSON. Raw content:\nbad")
    ∧ batch_generate parseSecondOnly [("b", "ok")] =
      (["random_pde_jsons/b.json"], Option.none) := ⟨rfl, rfl⟩

/-- C2 amended: a reply that fails to parse as JSON raises a ValueError
that no batch caller catches, so it is fatal to the whole remaining
batch: the documents before the failing one are already saved, while the
failing document and every document after it produce nothing. -/
theorem batch_abort_amended (parse : String → Option PyVal) (pre : List (String × String))
    (name content : String) (post : List (String × String))
    (hpre : ∀ e ∈ pre, (parse (stripCodeFences (pyStrip e.2))).isSome = true)
    (hfail : parse (stripCodeFences (pyStrip content)) = Option.none) :
    batch_generate parse (pre ++ (name, content) :: post) =
      (pre.map (fun e => "random_pde_jsons/" ++ e.1 ++ ".json"),
       some ("Model did not return valid JSON. Raw content:\n" ++ stripCodeFences (pyStrip content))) := by
  induction pre with
  | nil =>
    simp [batch_generate, convert_pde_to_json_file, hfail]
  | cons e rest ih =>
    obtain ⟨en, ec⟩ := e
    have he := hpre (en, ec) (List.mem_cons_self _ _)
    have ihh := ih (fun x hx => hpre x (List.mem_cons_of_mem _ hx))
    rcases Option.isSome_iff_exists.mp he with ⟨v, hv⟩
    simp only [List.cons_append, batch_generate, convert_pde_to_json_file, hv, ihh]
    simp [ihh]

/-- C2 amended witness: a three-document batch whose middle document
fails saves only the first and never reaches the third. -/
theorem batch_abort_amended_witness :
    batch_generate parseSecondOnly [("b", "ok"), ("a", "bad"), ("c", "ok")] =
      (["random_pde_jsons/b.json"], some "Model did not return valid JSON. Raw content:\nbad") :=
  batch_abort_amended parseSecondOnly [("b", "ok")] "a" "bad" [("c", "ok")]
    (by decide) rfl

/-- The amended mapping formatting agrees with the location formatting of
the code. -/
theorem specMapFmtFixed_eq_formatLocation (v : PyVal) :
    specMapFmtFixed v = formatLocation v := by
  cases v with
  | dict kvs => cases kvs <;> rfl
  | str s => rfl
  | none => rfl
  | bool b => rfl
  | int n => rfl
  | list xs => rfl

/-- The amended mapping formatting agrees with the spec-field formatting
of the code. -/
theorem specMapFmtFixed_eq_formatSpec (v : PyVal) :
    specMapFmtFixed v = formatSpec v := by
  cases v with
  | dict kvs => cases kvs <;> rfl
  | str s => rfl
  | none => rfl
  | bool b => rfl
  | int n => rfl
  | list xs => rfl

/-- The parameterized initial-condition loop at the amended formatter is
the loop of the code. -/
theorem emitICsWith_fixed (fuel : Nat) (l : List PyVal) :
    emitICsWith specMapFmtFixed fuel l = emitICs fuel l := by
  induction l with
  | nil => rfl
  | cons ic rest ih =>
    cases ic with
    | dict is0 =>
      simp only [emitICsWith, emitICs, specMapFmtFixed_eq_formatLocation, ih]
    | none => rfl
    | bool b => rfl
    | int n => rfl
    | str s => rfl
    | list xs => rfl

/-- The parameterized boundary-condition loop at the amended formatter is
the loop of the code. -/
theorem emitBCsWith_fixed (fuel : Nat) (l : List PyVal) :
    emitBCsWith specMapFmtFixed fuel l = emitBCs fuel l := by
  induction l with
  | nil => rfl
  | cons bc rest ih =>
    cases bc with
    | dict bs0 =>
      simp only [emitBCsWith, emitBCs, specMapFmtFixed_eq_formatSpec, ih]
    | none => rfl
    | bool b => rfl
    | int n => rfl
    | str s => rfl
    | list xs => rfl

/-- The parameterized initial-conditions section at the amended formatter
is that section of the code. -/
theorem icOutWith_fixed (fuel : Nat) (ds : List (String × PyVal)) :
    icOutWith specMapFmtFixed fuel ds = icOut fuel ds := by
  simp only [icOutWith, icOut, emitICsWith_fixed]

/-- The parameterized boundary-conditions section at the amended
formatter is that section of the code. -/
theorem bcOutWith_fixed (fuel : Nat) (ds : List (String × PyVal)) :
    bcOutWith specMapFmtFixed fuel ds = bcOut fuel ds := by
  simp only [bcOutWith, bcOut, emitBCsWith_fixed]

/-- A classification produced by classifyVal is one of the three
categories. -/
theorem classifyVal_total (v : PyVal) (cat : String) (h : classifyVal v = some cat) :
    cat = "pde" ∨ cat = "boundary" ∨ cat = "initial" := by
  cases v <;> simp [classifyVal] at h
  case str s =>
    rcases classify_total s with hc | hc | hc <;> rw [hc] at h <;> tauto

/-- The bucket-accumulating loop of the code computes the filter-based
grouping of the rendered equation list. -/
theorem collectEqs_eq (fuel : Nat) :
    ∀ eqs, collectEqs fuel eqs =
      (renderEqs fuel eqs).map
        (fun l => (eqsOfCat "pde" l, eqsOfCat "boundary" l, eqsOfCat "initial" l)) := by
  intro eqs
  induction eqs with
  | nil => rfl
  | cons eq rest ih =>
    cases eq with
    | dict es =>
      simp only [collectEqs, renderEqs, renderEq]
      cases hl : expr_to_str fuel ((es.lookup "lhs").getD (PyVal.dict [])) with
      | none => rfl
      | some lhs =>
        cases hr : expr_to_str fuel ((es.lookup "rhs").getD (PyVal.dict [])) with
        | none => rfl
        | some rhs =>
          cases hc : classifyVal ((es.lookup "equation_id").getD (PyVal.str "unknown")) with
          | none => rfl
          | some cat =>
            rw [ih]
            cases hrr : renderEqs fuel rest with
            | none => rfl
            | some l =>
              rcases classifyVal_total _ _ hc with hcat | hcat | hcat <;> subst hcat <;>
                simp +decide [eqsOfCat, List.filter]
    | none => rfl
    | bool b => rfl
    | int n => rfl
    | str s => rfl
    | list xs => rfl

/-- The grouped equation sections as the specification words them are the
grouped sections of the code. -/
theorem pdesSectionSpec_eq (fuel : Nat) (ds : List (String × PyVal)) :
    pdesSectionSpec fuel ds = pdesOut fuel ds := by
  simp only [pdesSectionSpec, pdesOut]
  cases hi : pyIterate ((List.lookup "pdes" ds).getD (PyVal.list [])) with
  | none => rfl
  | some eqs =>
    simp only []
    rw [collectEqs_eq]
    cases hr : renderEqs fuel eqs with
    | none => rfl
    | some l => rfl

/-- C7 amended: the document renderer prints exactly the sections the
claim lists, in its fixed order, with the formatting of the claim amended only
in that an empty mapping location or spec renders as a question mark
instead of an empty join. -/
theorem document_sections (fuel : Nat) (basename : String) (data : PyVal) :
    print_pde_file fuel basename data = renderDocumentPerClaimFixed fuel basename data := by
  simp only [print_pde_file, renderDocumentPerClaimFixed, renderDocumentWith]
  cases data with
  | dict ds =>
    cases hm : (List.lookup "metadata" ds).getD (PyVal.dict []) <;>
      simp only [pdesSectionSpec_eq, icOutWith_fixed, bcOutWith_fixed]
  | none => rfl
  | bool b => rfl
  | int n => rfl
  | str s => rfl
  | list xs => rfl

/-- C7 counterexample: on a document whose initial condition has an empty
mapping location the code prints a question mark between at and the
colon, while the formatting the claim states joins no entries and prints
nothing there. -/
theorem document_claim_counterexample :
    (print_pde_file 3 "doc.json" emptyLocDoc).lines =
      ["\n=== doc.json ===", "\nPDE(s):", "\nBoundary condition(s) (from \x27pdes\x27):",
       "\nInitial condition(s) (from \x27pdes\x27):",
       "\nInitial condition(s) (from \x27initial_conditions\x27):",
       "  [ic] ? at ?: 0"]
    ∧ (renderDocumentPerClaim 3 "doc.json" emptyLocDoc).lines =
      ["\n=== doc.json ===", "\nPDE(s):", "\nBoundary condition(s) (from \x27pdes\x27):",
       "\nInitial condition(s) (from \x27pdes\x27):",
       "\nInitial condition(s) (from \x27initial_conditions\x27):",
       "  [ic] ? at : 0"] := ⟨rfl, rfl⟩

/-- C3 witness: the five operator forms at concrete nodes, among them the
documented product example that renders by juxtaposition. -/
theorem op_rendering_witness :
    expr_to_str 2 (PyVal.dict [("type", PyVal.str "op"), ("op", PyVal.str "+"),
        ("args", PyVal.list [PyVal.dict [("type", PyVal.str "const"), ("value", PyVal.int 0)],
                             PyVal.dict [("type", PyVal.str "const"), ("value", PyVal.int 0)]])]) =
      some (PyVal.str "(0 + 0)")
    ∧ expr_to_str 2 (PyVal.dict [("type", PyVal.str "op"), ("op", PyVal.str "*"),
        ("args", PyVal.list [PyVal.dict [("type", PyVal.str "dep"), ("name", PyVal.str "u")],
                             PyVal.dict [("type", PyVal.str "deriv"), ("dep", PyVal.str "u"), ("wrt", PyVal.str "x"), ("order", PyVal.int 1)]])]) =
      some (PyVal.str "(u ∂u/∂x)")
    ∧ expr_to_str 2 (PyVal.dict [("type", PyVal.str "op"), ("op", PyVal.str "^"),
        ("args", PyVal.list [PyVal.dict [("type", PyVal.str "const"), ("value", PyVal.int 0)],
                             PyVal.dict [("type", PyVal.str "const"), ("value", PyVal.int 0)]])]) =
      some (PyVal.str "(0^0)")
    ∧ expr_to_str 2 (PyVal.dict [("type", PyVal.str "op"), ("op", PyVal.str "+"),
        ("args", PyVal.list [PyVal.dict [("type", PyVal.str "const"), ("value", PyVal.int 0)],
                             PyVal.dict [("type", PyVal.str "const"), ("value", PyVal.int 0)],
                             PyVal.dict [("type", PyVal.str "const"), ("value", PyVal.int 0)]])]) =
      some (PyVal.str "+(0, 0, 0)")
    ∧ expr_to_str 2 (PyVal.dict [("type", PyVal.str "op"), ("op", PyVal.str "@"),
        ("args", PyVal.list [PyVal.dict [("type", PyVal.str "const"), ("value", PyVal.int 0)],
                             PyVal.dict [("type", PyVal.str "const"), ("value", PyVal.int 0)]])]) =
      some (PyVal.str "@(0, 0)") :=
  ⟨(op_rendering "+" (PyVal.dict [("type", PyVal.str "const"), ("value", PyVal.int 0)])
      (PyVal.dict [("type", PyVal.str "const"), ("value", PyVal.int 0)])
      (PyVal.str "0") (PyVal.str "0") [] [] 1).1 (Or.inl rfl) rfl rfl,
   (op_rendering "*" (PyVal.dict [("type", PyVal.str "dep"), ("name", PyVal.str "u")])
      (PyVal.dict [("type", PyVal.str "deriv"), ("dep", PyVal.str "u"), ("wrt", PyVal.str "x"), ("order", PyVal.int 1)])
      (PyVal.str "u") (PyVal.str "∂u/∂x") [] [] 1).2.1 rfl rfl,
   (op_rendering "^" (PyVal.dict [("type", PyVal.str "const"), ("value", PyVal.int 0)])
      (PyVal.dict [("type", PyVal.str "const"), ("value", PyVal.int 0)])
      (PyVal.str "0") (PyVal.str "0") [] [] 1).2.2.1 rfl rfl,
   (op_rendering "+" (PyVal.dict [("type", PyVal.str "const"), ("value", PyVal.int 0)])
      (PyVal.dict [("type", PyVal.str "const"), ("value", PyVal.int 0)])
      (PyVal.str "0") (PyVal.str "0")
      [PyVal.dict [("type", PyVal.str "const"), ("value", PyVal.int 0)],
       PyVal.dict [("type", PyVal.str "const"), ("value", PyVal.int 0)],
       PyVal.dict [("type", PyVal.str "const"), ("value", PyVal.int 0)]]
      ["0", "0", "0"] 1).2.2.2.1 (by decide) rfl,
   (op_rendering "@" (PyVal.dict [("type", PyVal.str "const"), ("value", PyVal.int 0)])
      (PyVal.dict [("type", PyVal.str "const"), ("value", PyVal.int 0)])
      (PyVal.str "0") (PyVal.str "0")
      [PyVal.dict [("type", PyVal.str "const"), ("value", PyVal.int 0)],
       PyVal.dict [("type", PyVal.str "const"), ("value", PyVal.int 0)]]
      ["0", "0"] 1).2.2.2.2 (by decide) rfl⟩
